import Mathlib

/-!
Verification of the cachekaro cache scanner/cleaner against its
natural-language specification.

The data model and the pure filtering/ordering operations are translated
from `src/cachekaro/platforms/base.py`, the platform path tables from
`src/cachekaro/platforms/{linux,macos,windows}.py`, and the item-ordering
logic from `src/cachekaro/exporters/html_export.py`.  The Scanner,
Analyzer and Cleaner modules, and the `CacheItem`/`ScanResult` models, are
declared by the package but their source files are not present in the
repository snapshot; those parts are modelled from the specification
(sections 3, 4.1 and 4.3) and marked `Modelled from the spec:` below.

Filesystem paths are modelled as strings; a filesystem snapshot is a map
from a candidate path to the subtree rooted there.  Machine floats in
`DiskUsage` percentages are modelled as exact rationals.
-/

namespace Cachekaro

/-- Risk level for cleaning a cache path (`RiskLevel` in `platforms/base.py`):
`SAFE`, `MODERATE`, `CAUTION`. -/
inductive RiskLevel where
  | safe
  | moderate
  | caution
deriving DecidableEq, Repr, BEq

/-- Categories for cache paths (`Category` in `platforms/base.py`). -/
inductive Category where
  | user_cache
  | system_cache
  | browser
  | development
  | logs
  | trash
  | downloads
  | application
  | container
  | custom
deriving DecidableEq, Repr, BEq

/-- A cache path to scan/clean (`CachePath` dataclass in
`platforms/base.py`).  `Path` objects are modelled as strings. -/
structure CachePath where
  path : String
  name : String
  category : Category
  description : String
  risk_level : RiskLevel
  clean_contents_only : Bool
  requires_admin : Bool
  app_specific : Bool
  app_name : Option String
deriving DecidableEq, Repr

/-- The risk order list `[RiskLevel.SAFE, RiskLevel.MODERATE,
RiskLevel.CAUTION]` built inside `PlatformBase.get_paths_by_risk`. -/
def risk_order : List RiskLevel := [.safe, .moderate, .caution]

/-- `PlatformBase.get_paths_by_risk`: keep the paths whose risk level's
index in `risk_order` is at most the ceiling's index.  The provider's
`self.get_cache_paths()` list is passed explicitly. -/
def get_paths_by_risk (cache_paths : List CachePath) (max_risk : RiskLevel) :
    List CachePath :=
  let max_index := risk_order.indexOf max_risk
  cache_paths.filter fun p => risk_order.indexOf p.risk_level ≤ max_index

/-- `PlatformBase.get_existing_paths`: keep only the cache paths that
exist on this system.  The filesystem's existence check (`Path.exists`)
is passed as a boolean predicate on paths. -/
def get_existing_paths (cache_paths : List CachePath)
    (exists_fn : String → Bool) : List CachePath :=
  cache_paths.filter fun p => exists_fn p.path

/-- Disk usage information (`DiskUsage` dataclass in `platforms/base.py`).
Byte counts are natural numbers; the float percentages are modelled as
exact rationals. -/
structure DiskUsage where
  total_bytes : Nat
  used_bytes : Nat
  free_bytes : Nat
  mount_point : String
deriving DecidableEq, Repr

/-- `DiskUsage.used_percent`: `0.0` when `total_bytes == 0`, otherwise
`used_bytes / total_bytes * 100`. -/
def DiskUsage.used_percent (d : DiskUsage) : ℚ :=
  if d.total_bytes = 0 then 0
  else ((d.used_bytes : ℚ) / (d.total_bytes : ℚ)) * 100

/-- `DiskUsage.free_percent`: `100.0 - self.used_percent`. -/
def DiskUsage.free_percent (d : DiskUsage) : ℚ :=
  100 - d.used_percent

/-- Modelled from the spec: a filesystem subtree as seen by the Scanner
(`core/scanner.py` is not in the repository snapshot).  An entry is a
regular file with an on-disk size, a symbolic link with its own size and
a target subtree, or a directory with a list of child entries. -/
inductive FSEntry where
  | file (size : Nat)
  | symlink (size : Nat) (target : FSEntry)
  | dir (children : List FSEntry)

mutual

/-- Modelled from the spec: the single depth-first traversal of
`core/scanner.py` (spec section 4.1), returning
`(size_bytes, file_count, dir_count)` for one entry.  Files contribute
their on-disk size and increment `file_count`; symlinks are counted by
their own size and never followed; directories recurse into their
children. -/
def scan_entry : FSEntry → Nat × Nat × Nat
  | .file size => (size, 1, 0)
  | .symlink size _ => (size, 0, 0)
  | .dir children => scan_children children

/-- Modelled from the spec: traversal of a directory's children; each
child directory increments `dir_count` and recurses. -/
def scan_children : List FSEntry → Nat × Nat × Nat
  | [] => (0, 0, 0)
  | c :: rest =>
      let s := scan_entry c
      let extra : Nat := match c with | .dir _ => 1 | _ => 0
      let r := scan_children rest
      (s.1 + r.1, s.2.1 + r.2.1, s.2.2 + extra + r.2.2)

end

/-- `size_bytes` of a scanned subtree. -/
def scan_size (t : FSEntry) : Nat := (scan_entry t).1

/-- `file_count` of a scanned subtree. -/
def scan_files (t : FSEntry) : Nat := (scan_entry t).2.1

/-- `dir_count` of a scanned subtree. -/
def scan_dirs (t : FSEntry) : Nat := (scan_entry t).2.2

/-- A filesystem snapshot: maps a candidate path to the subtree rooted
there, or `none` when the path does not exist. -/
def FS : Type := String → Option FSEntry

/-- Modelled from the spec: the Scanner's per-path output
(`models/cache_item.py` is not in the repository snapshot; fields follow
spec section 3 "Item" and the construction sites in `tests/conftest.py`).
Timestamps and per-extension statistics are omitted: no claim below
mentions them. -/
structure CacheItem where
  path : String
  name : String
  category : Category
  size_bytes : Nat
  file_count : Nat
  dir_count : Nat
  risk_level : RiskLevel
  is_cleanable : Bool
deriving DecidableEq, Repr

/-- Modelled from the spec: scan metadata counts
(`models/scan_result.py` is not in the repository snapshot; fields follow
spec section 3 "Result" and `tests/conftest.py`). -/
structure ScanMetadata where
  scan_paths_total : Nat
  scan_paths_found : Nat
  scan_paths_accessible : Nat
deriving DecidableEq, Repr

/-- Modelled from the spec: the immutable scan result
(`models/scan_result.py` is not in the repository snapshot; fields follow
spec section 3 "Result" and `tests/conftest.py`). -/
structure ScanResult where
  items : List CacheItem
  metadata : ScanMetadata
  disk_total : Nat
  disk_used : Nat
  disk_free : Nat
deriving DecidableEq, Repr

/-- Modelled from the spec: Result total size, derived on read as the sum
of the items' `size_bytes`. -/
def ScanResult.total_size (r : ScanResult) : Nat :=
  (r.items.map (·.size_bytes)).sum

/-- Modelled from the spec: Result total files, derived on read as the sum
of the items' `file_count`. -/
def ScanResult.total_files (r : ScanResult) : Nat :=
  (r.items.map (·.file_count)).sum

/-- Modelled from the spec: a per-category summary
(`CategorySummary` in the missing `models/scan_result.py`): size,
file count and item count reduced over the items of one category. -/
structure CategorySummary where
  category : Category
  total_size : Nat
  file_count : Nat
  item_count : Nat
deriving DecidableEq, Repr

/-- Modelled from the spec: the Analyzer's reduce-by-category step
(spec section 4.2) for one category. -/
def ScanResult.category_summary (r : ScanResult) (c : Category) :
    CategorySummary :=
  let in_cat := r.items.filter fun i => i.category = c
  { category := c
    total_size := (in_cat.map (·.size_bytes)).sum
    file_count := (in_cat.map (·.file_count)).sum
    item_count := in_cat.length }

/-- The ten categories, in declaration order of `Category` in
`platforms/base.py`. -/
def all_categories : List Category :=
  [.user_cache, .system_cache, .browser, .development, .logs, .trash,
   .downloads, .application, .container, .custom]

/-- Modelled from the spec: the Scanner's per-candidate item assembly —
an existing candidate path yields one item carrying the aggregated
traversal counts; a non-existent one yields nothing. -/
def scan_path (fs : FS) (p : CachePath) : Option CacheItem :=
  (fs p.path).map fun tree =>
    { path := p.path
      name := p.name
      category := p.category
      size_bytes := scan_size tree
      file_count := scan_files tree
      dir_count := scan_dirs tree
      risk_level := p.risk_level
      is_cleanable := true }

/-- Modelled from the spec: the Scanner's contract (spec section 4.1) —
items for the candidates that exist, in input order, plus found/total
counts for the metadata.  Existence in the snapshot is
`(fs p.path).isSome`; the found count is the number of existing
candidates. -/
def scan_candidates (fs : FS) (candidates : List CachePath) :
    List CacheItem × ScanMetadata :=
  let found := get_existing_paths candidates fun q => (fs q).isSome
  ⟨found.filterMap (scan_path fs),
   { scan_paths_total := candidates.length
     scan_paths_found := found.length
     scan_paths_accessible := found.length }⟩

/-- Modelled from the spec: the Cleaner's per-item input
(`core/cleaner.py` is not in the repository snapshot): the candidate
path together with the policy fields consulted by the skip chain of
spec section 4.3. -/
structure CleanTarget where
  path : String
  is_cleanable : Bool
  risk_level : RiskLevel
  requires_admin : Bool
  clean_contents_only : Bool
deriving DecidableEq, Repr

/-- Modelled from the spec: `CleanOutcome` (spec section 3) — path,
bytes freed, files removed, success flag, error detail, skip reason. -/
structure CleanOutcome where
  path : String
  bytes_freed : Nat
  files_removed : Nat
  success : Bool
  skip_reason : Option String
  error : Option String
deriving DecidableEq, Repr

/-- A skip outcome: nothing freed, `success = false`, the given reason. -/
def skip_outcome (p : String) (reason : String) : CleanOutcome :=
  { path := p, bytes_freed := 0, files_removed := 0, success := false,
    skip_reason := some reason, error := none }

/-- Modelled from the spec: the Cleaner's admission test — the first
three steps of the per-item policy order of spec section 4.3: cleanable,
risk level within the ceiling, and elevation when required. -/
def admitted (is_admin : Bool) (ceiling : RiskLevel) (t : CleanTarget) :
    Bool :=
  t.is_cleanable &&
    !(risk_order.indexOf ceiling < risk_order.indexOf t.risk_level) &&
    !(t.requires_admin && !is_admin)

/-- Modelled from the spec: cleaning of one item (spec section 4.3).
Policy order: (1) skip if not cleanable; (2) skip if the risk level
exceeds the ceiling; (3) skip if admin is required and the process is
not elevated; (4) re-check existence immediately before deletion and
skip if gone; (5) delete — children only when `clean_contents_only`
(the directory is left existing and empty), the whole path otherwise.
With `dry_run` the same traversal and accounting run but the snapshot
is left untouched. -/
def clean_item (is_admin : Bool) (ceiling : RiskLevel) (dry_run : Bool)
    (fs : FS) (t : CleanTarget) : CleanOutcome × FS :=
  if ¬ t.is_cleanable then (skip_outcome t.path "not cleanable", fs)
  else if risk_order.indexOf ceiling < risk_order.indexOf t.risk_level then
    (skip_outcome t.path "policy excluded", fs)
  else if t.requires_admin && !is_admin then
    (skip_outcome t.path "elevation required", fs)
  else
    match fs t.path with
    | none => (skip_outcome t.path "not found", fs)
    | some tree =>
        let fs' : FS :=
          if dry_run then fs
          else fun q =>
            if q = t.path then
              (if t.clean_contents_only then some (.dir []) else none)
            else fs q
        ({ path := t.path, bytes_freed := scan_size tree,
           files_removed := scan_files tree, success := true,
           skip_reason := none, error := none }, fs')

/-- Modelled from the spec: the Cleaner over a selection — item-isolated,
in input order, threading the filesystem snapshot. -/
def clean_all (is_admin : Bool) (ceiling : RiskLevel) (dry_run : Bool)
    (fs : FS) : List CleanTarget → List CleanOutcome × FS
  | [] => ([], fs)
  | t :: ts =>
      let step := clean_item is_admin ceiling dry_run fs t
      let rest := clean_all is_admin ceiling dry_run step.2 ts
      (step.1 :: rest.1, rest.2)

/-- Modelled from the spec: the cumulative `bytes_freed` reported by a
Cleaner run. -/
def total_bytes_freed (outcomes : List CleanOutcome) : Nat :=
  (outcomes.map (·.bytes_freed)).sum

/-- Insertion step of the stable descending sort.  Items are tagged with
their original scan position so that stability is expressible: the new
element `x` (earlier in scan order than everything already inserted) is
placed before the first element whose `size_bytes` does not exceed
`x`'s, so among equal sizes the earlier element comes first — the
semantics of Python's stable `sorted(items, key=lambda x: x.size_bytes,
reverse=True)` used by `HtmlExporter._generate_table_rows`. -/
def insert_desc (x : Nat × CacheItem) :
    List (Nat × CacheItem) → List (Nat × CacheItem)
  | [] => [x]
  | y :: ys =>
      if y.2.size_bytes ≤ x.2.size_bytes then x :: y :: ys
      else y :: insert_desc x ys

/-- Stable sort by `size_bytes` descending of a position-tagged item
list, processing the input left to right. -/
def sort_desc_tagged (l : List (Nat × CacheItem)) :
    List (Nat × CacheItem) :=
  l.foldr insert_desc []

/-- The item order produced by `sorted(result.items, key=lambda x:
x.size_bytes, reverse=True)` in `HtmlExporter._generate_table_rows`:
tag each item with its scan position, stable-sort, drop the tags. -/
def sorted_by_size_desc (items : List CacheItem) : List CacheItem :=
  (sort_desc_tagged items.enum).map Prod.snd

/-- Modelled from the spec: `ScanResult.get_top_items`
(`models/scan_result.py` is not in the repository snapshot) — the first
`n` items of the stable descending-by-size order (spec section 4.2
"Top-N"). -/
def ScanResult.get_top_items (r : ScanResult) (n : Nat) :
    List CacheItem :=
  (sorted_by_size_desc r.items).take n

/-- Shorthand constructor for a `CachePath` table entry: path, name,
category, description, risk level, clean-contents-only, requires-admin,
app-specific, app name. -/
def mkCP (path name : String) (category : Category) (description : String)
    (risk_level : RiskLevel) (clean_contents_only requires_admin
    app_specific : Bool) (app_name : Option String) : CachePath :=
  { path := path, name := name, category := category,
    description := description, risk_level := risk_level,
    clean_contents_only := clean_contents_only,
    requires_admin := requires_admin, app_specific := app_specific,
    app_name := app_name }

/-- Mutable provider state from `PlatformBase.__init__`:
`self._cache_paths = []`. -/
structure PlatformState where
  cache_paths : List CachePath
deriving Repr

/-- The freshly constructed provider state: an empty memo. -/
def PlatformState.init : PlatformState := ⟨[]⟩

/-- Environment read by `LinuxPlatform.get_cache_paths`: the home
directory, the three XDG base directories (as resolved by
`_get_xdg_cache_home` etc.), the resolved trash path
(`get_trash_path()`, `none` when no trash directory exists) and the
`XDG_DOWNLOAD_DIR` environment variable. -/
structure LinuxEnv where
  home : String
  cache_home : String
  config_home : String
  data_home : String
  trash_path : Option String
  xdg_download_dir : Option String
deriving DecidableEq, Repr

/-- The path table built by `LinuxPlatform.get_cache_paths`
(`platforms/linux.py`), in source order. -/
def linux_build_paths (e : LinuxEnv) : List CachePath :=
  let h := e.home
  let ch := e.cache_home
  let cfg := e.config_home
  let dh := e.data_home
  [mkCP (ch ++ "/google-chrome") "Google Chrome Cache" .browser
    "Google Chrome browser cache" .safe true false true (some "Chrome"),
   mkCP (ch ++ "/chromium") "Chromium Cache" .browser
    "Chromium browser cache" .safe true false true (some "Chromium"),
   mkCP (ch ++ "/mozilla") "Firefox Cache" .browser
    "Mozilla Firefox browser cache" .safe true false true (some "Firefox"),
   mkCP (ch ++ "/BraveSoftware") "Brave Browser Cache" .browser
    "Brave browser cache" .safe true false true (some "Brave"),
   mkCP (ch ++ "/microsoft-edge") "Microsoft Edge Cache" .browser
    "Microsoft Edge browser cache" .safe true false true (some "Edge"),
   mkCP (ch ++ "/pip") "pip Cache" .development
    "Python pip package cache" .safe true false false none,
   mkCP (ch ++ "/yarn") "Yarn Cache" .development
    "Yarn package manager cache" .safe true false false none,
   mkCP (ch ++ "/pnpm") "pnpm Cache" .development
    "pnpm package manager cache" .safe true false false none,
   mkCP (ch ++ "/node-gyp") "node-gyp Cache" .development
    "Node.js native addon build cache" .safe true false false none,
   mkCP (ch ++ "/typescript") "TypeScript Cache" .development
    "TypeScript compiler cache" .safe true false false none,
   mkCP (ch ++ "/JetBrains") "JetBrains Cache" .development
    "JetBrains IDE cache" .safe true false true (some "JetBrains"),
   mkCP (ch ++ "/huggingface") "HuggingFace Models" .development
    "HuggingFace AI models cache (can be large!)" .moderate true false
    false none,
   mkCP (ch ++ "/puppeteer") "Puppeteer Browsers" .development
    "Puppeteer browser automation cache" .safe true false false none,
   mkCP (ch ++ "/pre-commit") "pre-commit Cache" .development
    "pre-commit hooks cache" .safe true false false none,
   mkCP (ch ++ "/uv") "uv Cache" .development
    "uv Python package manager cache" .safe true false false none,
   mkCP (ch ++ "/go-build") "Go Build Cache" .development
    "Go compilation cache" .safe true false false none,
   mkCP (ch ++ "/bazel") "Bazel Cache" .development
    "Bazel build system cache" .safe true false false none,
   mkCP (ch ++ "/spotify") "Spotify Cache" .application
    "Spotify streaming cache" .safe true false true (some "Spotify"),
   mkCP (ch ++ "/discord") "Discord Cache" .application
    "Discord app cache" .safe true false true (some "Discord"),
   mkCP (ch ++ "/Slack") "Slack Cache" .application
    "Slack messaging app cache" .safe true false true (some "Slack"),
   mkCP (ch ++ "/zoom") "Zoom Cache" .application
    "Zoom video conferencing cache" .safe true false true (some "Zoom"),
   mkCP (ch ++ "/thumbnails") "Thumbnails" .system_cache
    "File manager thumbnail cache" .safe true false false none,
   mkCP (ch ++ "/fontconfig") "Font Cache" .system_cache
    "Font configuration cache" .safe true false false none,
   mkCP (ch ++ "/mesa_shader_cache") "Mesa Shader Cache" .system_cache
    "OpenGL shader compilation cache" .safe true false false none,
   mkCP (h ++ "/.npm/_cacache") "NPM Cache" .development
    "NPM package manager cache" .safe true false false none,
   mkCP (cfg ++ "/Code/Cache") "VS Code Cache" .development
    "Visual Studio Code cache" .safe true false true (some "VS Code"),
   mkCP (cfg ++ "/Code/CachedData") "VS Code CachedData" .development
    "VS Code cached compiled data" .safe true false true (some "VS Code"),
   mkCP (cfg ++ "/Code/CachedExtensionVSIXs") "VS Code Extension Cache"
    .development "VS Code old extension downloads" .safe true false true
    (some "VS Code"),
   mkCP (cfg ++ "/google-chrome/Default/Service Worker")
    "Chrome Service Workers" .browser "Chrome web app service workers"
    .safe false false true (some "Chrome"),
   mkCP (cfg ++ "/chromium/Default/Service Worker")
    "Chromium Service Workers" .browser "Chromium web app service workers"
    .safe false false true (some "Chromium"),
   mkCP (h ++ "/.gradle/caches") "Gradle Cache" .development
    "Gradle build system cache" .safe true false false none,
   mkCP (h ++ "/.m2/repository") "Maven Repository" .development
    "Maven dependency cache" .moderate true false false none,
   mkCP (h ++ "/.cargo/registry/cache") "Cargo Registry Cache"
    .development "Rust Cargo package cache" .safe true false false none,
   mkCP (h ++ "/go/pkg/mod/cache") "Go Module Cache" .development
    "Go module download cache" .safe true false false none,
   mkCP (h ++ "/.docker/buildx") "Docker Buildx Cache" .development
    "Docker buildx builder cache" .safe true false false none,
   mkCP (h ++ "/.composer/cache") "Composer Cache" .development
    "PHP Composer package cache" .safe true false false none,
   mkCP (h ++ "/.gem/cache") "Ruby Gem Cache" .development
    "Ruby gem package cache" .safe true false false none,
   mkCP (dh ++ "/JetBrains") "JetBrains Data" .logs
    "JetBrains IDE logs and data" .moderate true false false none,
   mkCP (h ++ "/.xsession-errors") "X Session Errors" .logs
    "X Window session error log" .safe false false false none]
  ++ (match e.trash_path with
      | some tp =>
        [mkCP (tp ++ "/files") "Trash Files" .trash
          "Files in Trash (permanently delete)" .safe true false false
          none,
         mkCP (tp ++ "/info") "Trash Info" .trash "Trash metadata" .safe
          true false false none]
      | none => [])
  ++ [mkCP (match e.xdg_download_dir with
            | some d => d
            | none => h ++ "/Downloads") "Downloads" .downloads
       "Downloaded files (review before deleting!)" .caution true false
       false none,
      mkCP (h ++ "/snap") "Snap Packages" .container
       "Snap package data (use with caution)" .caution true false false
       none,
      mkCP (dh ++ "/flatpak") "Flatpak Data" .container
       "Flatpak application data" .caution true false false none]

/-- `LinuxPlatform.get_cache_paths`: return the memoized list when it is
non-empty, otherwise build the table, store it, and return it. -/
def linux_get_cache_paths (e : LinuxEnv) (s : PlatformState) :
    List CachePath × PlatformState :=
  if s.cache_paths ≠ [] then (s.cache_paths, s)
  else
    let paths := linux_build_paths e
    (paths, ⟨paths⟩)

/-- Environment read by `MacOSPlatform.get_cache_paths`: only the home
directory. -/
structure MacOSEnv where
  home : String
deriving DecidableEq, Repr

/-- The path table built by `MacOSPlatform.get_cache_paths`
(`platforms/macos.py`), in source order. -/
def macos_build_paths (e : MacOSEnv) : List CachePath :=
  let h := e.home
  let library := h ++ "/Library"
  let caches := library ++ "/Caches"
  let hidden := h ++ "/.cache"
  let app_support := library ++ "/Application Support"
  let logs := library ++ "/Logs"
  let developer := library ++ "/Developer"
  let containers := library ++ "/Containers"
  [mkCP (caches ++ "/com.apple.textunderstandingd")
    "Apple Text Understanding" .system_cache "Apple text analysis cache"
    .safe true false false none,
   mkCP (caches ++ "/SiriTTS") "Siri TTS" .system_cache
    "Siri text-to-speech cache" .safe true false false none,
   mkCP (caches ++ "/GeoServices") "GeoServices" .system_cache
    "Apple location services cache" .safe true false false none,
   mkCP (caches ++ "/com.apple.Safari") "Safari Cache" .browser
    "Safari browser cache" .safe true false true (some "Safari"),
   mkCP (caches ++ "/Google") "Google/Chrome Cache" .browser
    "Google Chrome browser cache" .safe true false true (some "Chrome"),
   mkCP (caches ++ "/BraveSoftware") "Brave Browser Cache" .browser
    "Brave browser cache" .safe true false true (some "Brave"),
   mkCP (caches ++ "/Firefox") "Firefox Cache" .browser
    "Firefox browser cache" .safe true false true (some "Firefox"),
   mkCP (caches ++ "/com.microsoft.Edge") "Microsoft Edge Cache" .browser
    "Microsoft Edge browser cache" .safe true false true (some "Edge"),
   mkCP (caches ++ "/com.spotify.client") "Spotify Cache" .application
    "Spotify streaming cache" .safe true false true (some "Spotify"),
   mkCP (caches ++ "/JetBrains") "JetBrains IDE Cache" .development
    "JetBrains IDEs cache (IntelliJ, PyCharm, WebStorm, etc.)" .safe true
    false true (some "JetBrains"),
   mkCP (caches ++ "/electron") "Electron Apps Cache" .application
    "Electron-based applications cache" .safe true false false none,
   mkCP (caches ++ "/com.lwouis.alt-tab-macos") "Alt-Tab Cache"
    .application "Alt-Tab window switcher cache" .safe true false true
    (some "Alt-Tab"),
   mkCP (caches ++ "/com.openai.chat") "ChatGPT Cache" .application
    "ChatGPT desktop app cache" .safe true false true (some "ChatGPT"),
   mkCP (caches ++ "/com.discord.Discord") "Discord Cache" .application
    "Discord app cache" .safe true false true (some "Discord"),
   mkCP (caches ++ "/com.hnc.Discord") "Discord (Alt) Cache" .application
    "Discord alternative app cache" .safe true false true (some "Discord"),
   mkCP (caches ++ "/Slack") "Slack Cache" .application
    "Slack messaging app cache" .safe true false true (some "Slack"),
   mkCP (caches ++ "/com.tinyspeck.slackmacgap") "Slack (Mac) Cache"
    .application "Slack Mac app cache" .safe true false true (some "Slack"),
   mkCP (caches ++ "/us.zoom.xos") "Zoom Cache" .application
    "Zoom video conferencing cache" .safe true false true (some "Zoom"),
   mkCP (caches ++ "/pnpm") "pnpm Package Cache" .development
    "pnpm package manager cache" .safe true false false none,
   mkCP (caches ++ "/yarn") "Yarn Cache" .development
    "Yarn package manager cache" .safe true false false none,
   mkCP (caches ++ "/pip") "pip Cache" .development
    "Python pip package cache" .safe true false false none,
   mkCP (caches ++ "/Homebrew") "Homebrew Cache" .development
    "Homebrew package downloads cache" .safe true false false none,
   mkCP (caches ++ "/node-gyp") "node-gyp Cache" .development
    "Node.js native addon build cache" .safe true false false none,
   mkCP (caches ++ "/typescript") "TypeScript Cache" .development
    "TypeScript compiler cache" .safe true false false none,
   mkCP (caches ++ "/ms-playwright-go") "Playwright Cache" .development
    "Playwright browser automation cache" .safe true false false none,
   mkCP (caches ++ "/CocoaPods") "CocoaPods Cache" .development
    "iOS/macOS dependency manager cache" .safe true false false none,
   mkCP (caches ++ "/org.carthage.CarthageKit") "Carthage Cache"
    .development "iOS/macOS Carthage dependency cache" .safe true false
    false none,
   mkCP (hidden ++ "/huggingface") "HuggingFace Models" .development
    "HuggingFace AI models cache (can be large!)" .moderate true false
    false none,
   mkCP (hidden ++ "/puppeteer") "Puppeteer Browsers" .development
    "Puppeteer browser automation cache" .safe true false false none,
   mkCP (hidden ++ "/pip") "pip HTTP Cache" .development
    "pip HTTP cache" .safe true false false none,
   mkCP (hidden ++ "/pre-commit") "pre-commit Cache" .development
    "pre-commit hooks cache" .safe true false false none,
   mkCP (hidden ++ "/uv") "uv Cache" .development
    "uv Python package manager cache" .safe true false false none,
   mkCP (h ++ "/.npm/_cacache") "NPM Cache" .development
    "NPM package manager cache" .safe true false false none,
   mkCP (app_support ++ "/Google/Chrome/Default/Service Worker")
    "Chrome Service Workers" .browser
    "Chrome web app service workers (PWA cache)" .safe false false true
    (some "Chrome"),
   mkCP (app_support ++ "/Code/Cache") "VS Code Cache" .development
    "Visual Studio Code cache" .safe true false true (some "VS Code"),
   mkCP (app_support ++ "/Code/CachedData") "VS Code CachedData"
    .development "VS Code cached compiled data" .safe true false true
    (some "VS Code"),
   mkCP (app_support ++ "/Code/CachedExtensionVSIXs")
    "VS Code Extension Cache" .development
    "VS Code old extension downloads" .safe true false true
    (some "VS Code"),
   mkCP (app_support ++ "/Code/CachedProfilesData")
    "VS Code Profiles Cache" .development "VS Code profile data cache"
    .safe true false true (some "VS Code"),
   mkCP (app_support ++ "/Cursor/Cache") "Cursor Cache" .development
    "Cursor editor cache" .safe true false true (some "Cursor"),
   mkCP (app_support ++ "/Cursor/CachedData") "Cursor CachedData"
    .development "Cursor editor cached compiled data" .safe true false
    true (some "Cursor"),
   mkCP (logs ++ "/JetBrains") "JetBrains Logs" .logs
    "JetBrains IDE log files" .safe true false false none,
   mkCP (logs ++ "/DiagnosticReports") "Diagnostic Reports" .logs
    "macOS crash reports and diagnostics" .safe true false false none,
   mkCP (logs ++ "/Claude") "Claude Logs" .logs "Claude AI app logs"
    .safe true false false none,
   mkCP (logs ++ "/Homebrew") "Homebrew Logs" .logs
    "Homebrew installation logs" .safe true false false none,
   mkCP (logs ++ "/Spotify") "Spotify Logs" .logs
    "Spotify application logs" .safe true false false none,
   mkCP (developer ++ "/Xcode/DerivedData") "Xcode DerivedData"
    .development "Xcode build artifacts (can be very large!)" .safe true
    false false none,
   mkCP (developer ++ "/Xcode/Archives") "Xcode Archives" .development
    "Xcode archived builds (review before deleting)" .moderate true false
    false none,
   mkCP (developer ++ "/CoreSimulator/Caches") "iOS Simulator Cache"
    .development "iOS Simulator cache" .safe true false false none,
   mkCP (h ++ "/.Trash") "Trash" .trash
    "Files in Trash (permanently delete)" .safe true false false none,
   mkCP (h ++ "/Downloads") "Downloads" .downloads
    "Downloaded files (review before deleting!)" .caution true false
    false none,
   mkCP containers "Container Apps" .container
    "Sandboxed app data (use with caution)" .caution true false false
    none,
   mkCP (h ++ "/.gradle/caches") "Gradle Cache" .development
    "Gradle build system cache" .safe true false false none,
   mkCP (h ++ "/.m2/repository") "Maven Repository" .development
    "Maven dependency cache (review before deleting)" .moderate true
    false false none,
   mkCP (h ++ "/.cargo/registry/cache") "Cargo Registry Cache"
    .development "Rust Cargo package cache" .safe true false false none,
   mkCP (h ++ "/go/pkg/mod/cache") "Go Module Cache" .development
    "Go module download cache" .safe true false false none,
   mkCP (h ++ "/.docker/buildx") "Docker Buildx Cache" .development
    "Docker buildx builder cache" .safe true false false none]

/-- `MacOSPlatform.get_cache_paths`: memoized exactly like the Linux
provider. -/
def macos_get_cache_paths (e : MacOSEnv) (s : PlatformState) :
    List CachePath × PlatformState :=
  if s.cache_paths ≠ [] then (s.cache_paths, s)
  else
    let paths := macos_build_paths e
    (paths, ⟨paths⟩)

/-- Environment read by `WindowsPlatform.get_cache_paths`: home,
`APPDATA`, `LOCALAPPDATA` (as resolved by `_get_appdata` /
`_get_localappdata`) and the temp directory. -/
structure WindowsEnv where
  home : String
  appdata : String
  localappdata : String
  temp : String
deriving DecidableEq, Repr

/-- The path table built by `WindowsPlatform.get_cache_paths`
(`platforms/windows.py`), in source order. -/
def windows_build_paths (e : WindowsEnv) : List CachePath :=
  let h := e.home
  let ad := e.appdata
  let lad := e.localappdata
  [mkCP e.temp "User Temp" .system_cache "User temporary files" .safe
    true false false none,
   mkCP "C:/Windows/Temp" "System Temp" .system_cache
    "System temporary files (requires admin)" .safe true true false none,
   mkCP (lad ++ "/Google/Chrome/User Data/Default/Cache") "Chrome Cache"
    .browser "Google Chrome browser cache" .safe true false true
    (some "Chrome"),
   mkCP (lad ++ "/Google/Chrome/User Data/Default/Code Cache")
    "Chrome Code Cache" .browser "Chrome JavaScript code cache" .safe
    true false true (some "Chrome"),
   mkCP (lad ++ "/Google/Chrome/User Data/Default/Service Worker")
    "Chrome Service Workers" .browser "Chrome web app service workers"
    .safe false false true (some "Chrome"),
   mkCP (lad ++ "/Microsoft/Edge/User Data/Default/Cache") "Edge Cache"
    .browser "Microsoft Edge browser cache" .safe true false true
    (some "Edge"),
   mkCP (lad ++ "/Microsoft/Edge/User Data/Default/Code Cache")
    "Edge Code Cache" .browser "Edge JavaScript code cache" .safe true
    false true (some "Edge"),
   mkCP (lad ++ "/BraveSoftware/Brave-Browser/User Data/Default/Cache")
    "Brave Cache" .browser "Brave browser cache" .safe true false true
    (some "Brave"),
   mkCP (lad ++ "/Mozilla/Firefox/Profiles") "Firefox Cache" .browser
    "Firefox browser profiles (contains cache)" .moderate true false true
    (some "Firefox"),
   mkCP (ad ++ "/npm-cache") "NPM Cache" .development
    "NPM package manager cache" .safe true false false none,
   mkCP (lad ++ "/pip/Cache") "pip Cache" .development
    "Python pip package cache" .safe true false false none,
   mkCP (lad ++ "/Yarn/Cache") "Yarn Cache" .development
    "Yarn package manager cache" .safe true false false none,
   mkCP (lad ++ "/pnpm-cache") "pnpm Cache" .development
    "pnpm package manager cache" .safe true false false none,
   mkCP (lad ++ "/NuGet/v3-cache") "NuGet Cache" .development
    ".NET NuGet package cache" .safe true false false none,
   mkCP (ad ++ "/Code/Cache") "VS Code Cache" .development
    "Visual Studio Code cache" .safe true false true (some "VS Code"),
   mkCP (ad ++ "/Code/CachedData") "VS Code CachedData" .development
    "VS Code cached compiled data" .safe true false true (some "VS Code"),
   mkCP (ad ++ "/Code/CachedExtensionVSIXs") "VS Code Extension Cache"
    .development "VS Code old extension downloads" .safe true false true
    (some "VS Code"),
   mkCP (lad ++ "/JetBrains") "JetBrains Cache" .development
    "JetBrains IDE caches" .safe true false true (some "JetBrains"),
   mkCP (h ++ "/.gradle/caches") "Gradle Cache" .development
    "Gradle build system cache" .safe true false false none,
   mkCP (h ++ "/.m2/repository") "Maven Repository" .development
    "Maven dependency cache" .moderate true false false none,
   mkCP (h ++ "/.cargo/registry/cache") "Cargo Registry Cache"
    .development "Rust Cargo package cache" .safe true false false none,
   mkCP (h ++ "/go/pkg/mod/cache") "Go Module Cache" .development
    "Go module download cache" .safe true false false none,
   mkCP (h ++ "/.docker/buildx") "Docker Buildx Cache" .development
    "Docker buildx builder cache" .safe true false false none,
   mkCP (lad ++ "/Docker/wsl") "Docker WSL Data" .development
    "Docker Desktop WSL backend data" .caution true false false none,
   mkCP (h ++ "/.cache/huggingface") "HuggingFace Models" .development
    "HuggingFace AI models cache (can be large!)" .moderate true false
    false none,
   mkCP (ad ++ "/Spotify/Storage") "Spotify Cache" .application
    "Spotify streaming cache" .safe true false true (some "Spotify"),
   mkCP (ad ++ "/discord/Cache") "Discord Cache" .application
    "Discord app cache" .safe true false true (some "Discord"),
   mkCP (ad ++ "/discord/Code Cache") "Discord Code Cache" .application
    "Discord JavaScript cache" .safe true false true (some "Discord"),
   mkCP (ad ++ "/Slack/Cache") "Slack Cache" .application
    "Slack messaging app cache" .safe true false true (some "Slack"),
   mkCP (ad ++ "/Zoom/data") "Zoom Cache" .application
    "Zoom video conferencing cache" .safe true false true (some "Zoom"),
   mkCP (lad ++ "/Microsoft/Teams/Cache") "Teams Cache" .application
    "Microsoft Teams cache" .safe true false true (some "Teams"),
   mkCP (lad ++ "/Microsoft/Windows/INetCache") "Internet Cache"
    .system_cache "Windows Internet Explorer/Edge cache" .safe true false
    false none,
   mkCP (lad ++ "/Microsoft/Windows/Explorer") "Explorer Cache"
    .system_cache "Windows Explorer thumbnail cache" .safe true false
    false none,
   mkCP (lad ++ "/CrashDumps") "Crash Dumps" .logs
    "Application crash dump files" .safe true false false none,
   mkCP (lad ++ "/Microsoft/Windows/WER") "Windows Error Reports" .logs
    "Windows Error Reporting files" .safe true false false none,
   mkCP "C:/Windows/SoftwareDistribution/Download" "Windows Update Cache"
    .system_cache "Windows Update downloaded files (requires admin)"
    .moderate true true false none,
   mkCP (h ++ "/Downloads") "Downloads" .downloads
    "Downloaded files (review before deleting!)" .caution true false
    false none,
   mkCP "C:/Windows/Prefetch" "Prefetch" .system_cache
    "Windows Prefetch files (requires admin)" .moderate true true false
    none]

/-- `WindowsPlatform.get_cache_paths`: memoized exactly like the Linux
provider. -/
def windows_get_cache_paths (e : WindowsEnv) (s : PlatformState) :
    List CachePath × PlatformState :=
  if s.cache_paths ≠ [] then (s.cache_paths, s)
  else
    let paths := windows_build_paths e
    (paths, ⟨paths⟩)

/-! ### Helper lemmas -/

/-- Each of the ten categories is listed in `all_categories`. -/
lemma mem_all_categories (c : Category) : c ∈ all_categories := by
  cases c <;> simp [all_categories]

lemma sum_map_ite_zero_of_not_mem {α : Type} [DecidableEq α] (a : α)
    (x : Nat) (l : List α) (ha : a ∉ l) :
    (l.map fun c => if a = c then x else 0).sum = 0 := by
  induction l with
  | nil => rfl
  | cons c cs ih =>
      simp only [List.mem_cons, not_or] at ha
      simp [ha.1, ih ha.2]

lemma sum_map_ite_of_nodup {α : Type} [DecidableEq α] (a : α) (x : Nat)
    (l : List α) (hnd : l.Nodup) (ha : a ∈ l) :
    (l.map fun c => if a = c then x else 0).sum = x := by
  induction l with
  | nil => cases ha
  | cons c cs ih =>
      rcases List.mem_cons.mp ha with h | h
      · subst h
        have : a ∉ cs := (List.nodup_cons.mp hnd).1
        simp [sum_map_ite_zero_of_not_mem a x cs this]
      · have hne : a ≠ c := by
          rintro rfl
          exact (List.nodup_cons.mp hnd).1 h
        simp [hne, ih (List.nodup_cons.mp hnd).2 h]

lemma sum_map_add_distrib {α : Type} (f g : α → Nat) (l : List α) :
    (l.map fun c => f c + g c).sum = (l.map f).sum + (l.map g).sum := by
  induction l with
  | nil => rfl
  | cons c cs ih => simp [ih]; omega

/-- Fiberwise summation over a complete duplicate-free category list
equals the direct sum. -/
lemma sum_fiberwise_eq (items : List CacheItem) (f : CacheItem → Nat)
    (cats : List Category) (hnd : cats.Nodup)
    (hcov : ∀ i ∈ items, i.category ∈ cats) :
    (cats.map fun c =>
      ((items.filter fun i => i.category = c).map f).sum).sum
      = (items.map f).sum := by
  induction items with
  | nil => simp
  | cons i rest ih =>
      have hstep : ∀ c : Category,
          ((((i :: rest).filter fun j => j.category = c)).map f).sum
            = (if i.category = c then f i else 0)
              + ((rest.filter fun j => j.category = c).map f).sum := by
        intro c
        by_cases h : i.category = c
        · simp [List.filter_cons, h]
        · simp [List.filter_cons, h]
      calc (cats.map fun c =>
              (((i :: rest).filter fun j => j.category = c).map f).sum).sum
          = (cats.map fun c => (if i.category = c then f i else 0)
              + ((rest.filter fun j => j.category = c).map f).sum).sum := by
            exact congrArg List.sum (List.map_congr_left fun c _ => hstep c)
        _ = (cats.map fun c => if i.category = c then f i else 0).sum
              + (cats.map fun c =>
                  ((rest.filter fun j => j.category = c).map f).sum).sum := by
            exact sum_map_add_distrib _ _ cats
        _ = f i + (rest.map f).sum := by
            rw [sum_map_ite_of_nodup i.category (f i) cats hnd
                (hcov i (List.mem_cons_self i rest)),
              ih fun j hj => hcov j (List.mem_cons_of_mem i hj)]
        _ = ((i :: rest).map f).sum := by simp

lemma length_filter_add_length_filter_not {α : Type} (l : List α)
    (p : α → Bool) :
    (l.filter p).length + (l.filter fun a => !(p a)).length = l.length := by
  induction l with
  | nil => rfl
  | cons a as ih => cases h : p a <;> simp [List.filter_cons, h] <;> omega

/-! ### Claim theorems -/

/-- C1: scanning a candidate directory with 3 regular files totaling
3072 bytes plus one 1024-byte file in one subdirectory yields
`size_bytes = 4096`, `file_count = 4`, `dir_count = 1`; in general,
during the single depth-first traversal each regular file adds its size
to `size_bytes` and increments `file_count`, each directory increments
`dir_count` (and contributes its recursive aggregates), and a symlink's
target subtree is never followed — the scan of a symlink is independent
of its target and contributes only the link's own size. -/
theorem scanner_depth_first_aggregation :
    scan_entry (.dir [.file 1024, .file 1024, .file 1024,
        .dir [.file 1024]]) = (4096, 4, 1) ∧
    (∀ (sz : Nat) (rest : List FSEntry),
      scan_children (.file sz :: rest)
        = (sz + (scan_children rest).1, 1 + (scan_children rest).2.1,
           (scan_children rest).2.2)) ∧
    (∀ (cs rest : List FSEntry),
      scan_children (.dir cs :: rest)
        = ((scan_children cs).1 + (scan_children rest).1,
           (scan_children cs).2.1 + (scan_children rest).2.1,
           (scan_children cs).2.2 + 1 + (scan_children rest).2.2)) ∧
    (∀ (sz : Nat) (t t' : FSEntry),
      scan_entry (.symlink sz t) = scan_entry (.symlink sz t') ∧
      scan_entry (.symlink sz t) = (sz, 0, 0)) := by
  refine ⟨rfl, ?_, ?_, ?_⟩
  · intro sz rest
    simp [scan_children, scan_entry]
  · intro cs rest
    simp [scan_children, scan_entry]
  · intro sz t t'
    exact ⟨rfl, rfl⟩

/-- C2: the sum of per-category summary `total_size` over all ten
categories equals the Result's total size, and the sum of per-item
`file_count` over all items equals the Result's total files. -/
theorem result_totals_partition (r : ScanResult) :
    (all_categories.map fun c => (r.category_summary c).total_size).sum
      = r.total_size ∧
    (r.items.map (·.file_count)).sum = r.total_files := by
  constructor
  · have h := sum_fiberwise_eq r.items (·.size_bytes) all_categories
      (by decide) (fun i _ => mem_all_categories i.category)
    simpa [ScanResult.category_summary, ScanResult.total_size] using h
  · rfl

/-- C9: `used_percent` is total — it returns `0` when `total_bytes = 0`
instead of dividing by zero and `used/total*100` otherwise —
`free_percent` equals `100 - used_percent`, and the two always sum to
`100`. -/
theorem disk_usage_percent_total (d : DiskUsage) :
    (d.total_bytes = 0 → d.used_percent = 0) ∧
    (d.total_bytes ≠ 0 →
      d.used_percent = ((d.used_bytes : ℚ) / (d.total_bytes : ℚ)) * 100) ∧
    d.free_percent = 100 - d.used_percent ∧
    d.used_percent + d.free_percent = 100 := by
  refine ⟨fun h => by simp [DiskUsage.used_percent, h],
         fun h => by simp [DiskUsage.used_percent, h],
         rfl, ?_⟩
  simp [DiskUsage.free_percent]

/-- Witness for C9 at `total = 0` and at `total = 200, used = 50`. -/
theorem disk_usage_percent_total_witness :
    (⟨0, 0, 0, "/"⟩ : DiskUsage).used_percent = 0 ∧
    (⟨200, 50, 150, "/"⟩ : DiskUsage).used_percent
      = ((50 : ℚ) / (200 : ℚ)) * 100 ∧
    (⟨200, 50, 150, "/"⟩ : DiskUsage).used_percent
      + (⟨200, 50, 150, "/"⟩ : DiskUsage).free_percent = 100 :=
  ⟨(disk_usage_percent_total ⟨0, 0, 0, "/"⟩).1 rfl,
   (disk_usage_percent_total ⟨200, 50, 150, "/"⟩).2.1 (by decide),
   (disk_usage_percent_total ⟨200, 50, 150, "/"⟩).2.2.2⟩

/-- C3: risk gating is a total-order filter — with ceiling `safe` every
path whose risk level is `moderate` or `caution` is skipped and exactly
the `safe` paths are admitted; with ceiling `caution` every path is
admitted. -/
theorem risk_gating_total_order (ps : List CachePath) :
    (∀ p ∈ ps, p.risk_level = .moderate ∨ p.risk_level = .caution →
      p ∉ get_paths_by_risk ps .safe) ∧
    (∀ p ∈ get_paths_by_risk ps .safe, p.risk_level = .safe) ∧
    (∀ p ∈ ps, p.risk_level = .safe → p ∈ get_paths_by_risk ps .safe) ∧
    get_paths_by_risk ps .caution = ps := by
  refine ⟨?_, ?_, ?_, ?_⟩
  · intro p _ h hmem
    simp only [get_paths_by_risk, List.mem_filter,
      decide_eq_true_eq] at hmem
    rcases h with h | h <;> rw [h] at hmem <;>
      exact absurd hmem.2 (by decide)
  · intro p hmem
    simp only [get_paths_by_risk, List.mem_filter,
      decide_eq_true_eq] at hmem
    cases hr : p.risk_level
    · rfl
    · rw [hr] at hmem; exact absurd hmem.2 (by decide)
    · rw [hr] at hmem; exact absurd hmem.2 (by decide)
  · intro p hp h
    simp only [get_paths_by_risk, List.mem_filter, decide_eq_true_eq]
    exact ⟨hp, by rw [h]⟩
  · unfold get_paths_by_risk
    apply List.filter_eq_self.mpr
    intro p _
    cases hr : p.risk_level <;> decide

/-- Witness for C3: a moderate path is rejected by ceiling `safe` and
the full two-element table passes ceiling `caution`. -/
theorem risk_gating_total_order_witness :
    mkCP "/a" "A" .user_cache "" .moderate true false false none ∉
      get_paths_by_risk
        [mkCP "/a" "A" .user_cache "" .moderate true false false none,
         mkCP "/b" "B" .user_cache "" .safe true false false none]
        .safe ∧
    get_paths_by_risk
        [mkCP "/a" "A" .user_cache "" .moderate true false false none,
         mkCP "/b" "B" .user_cache "" .safe true false false none]
        .caution
      = [mkCP "/a" "A" .user_cache "" .moderate true false false none,
         mkCP "/b" "B" .user_cache "" .safe true false false none] :=
  ⟨(risk_gating_total_order _).1 _ (by simp) (Or.inl rfl),
   (risk_gating_total_order _).2.2.2⟩

/-- C7: a candidate path that does not exist in the snapshot is silently
excluded — it is dropped by `get_existing_paths`, no scanned item carries
its path — and the found count equals the total-candidates count minus
the number of non-existent candidates. -/
theorem nonexistent_candidate_excluded (fs : FS) (cands : List CachePath)
    (p : CachePath) (hp : p ∈ cands) (hgone : fs p.path = none) :
    p ∉ get_existing_paths cands (fun q => (fs q).isSome) ∧
    (∀ i ∈ (scan_candidates fs cands).1, i.path ≠ p.path) ∧
    (scan_candidates fs cands).2.scan_paths_found
      + (cands.filter fun c => (fs c.path).isNone).length
      = (scan_candidates fs cands).2.scan_paths_total ∧
    (cands.filter fun c => (fs c.path).isNone).length ≠ 0 := by
  refine ⟨?_, ?_, ?_, ?_⟩
  · intro hmem
    simp only [get_existing_paths, List.mem_filter,
      decide_eq_true_eq] at hmem
    rw [hgone] at hmem
    exact absurd hmem.2 (by decide)
  · intro i hi hpath
    simp only [scan_candidates, List.mem_filterMap] at hi
    obtain ⟨c, hc, hsc⟩ := hi
    simp only [scan_path, Option.map_eq_some'] at hsc
    obtain ⟨tree, htree, hitem⟩ := hsc
    have : i.path = c.path := by rw [← hitem]
    rw [this] at hpath
    rw [hpath, hgone] at htree
    cases htree
  · show (get_existing_paths cands fun q => (fs q).isSome).length + _ = _
    unfold get_existing_paths
    have hcongr : (cands.filter fun c => (fs c.path).isNone)
        = cands.filter fun c => !((fs c.path).isSome) := by
      apply List.filter_congr
      intro c _
      cases fs c.path <;> rfl
    rw [hcongr]
    exact length_filter_add_length_filter_not cands
      fun c => (fs c.path).isSome
  · have : p ∈ cands.filter fun c => (fs c.path).isNone := by
      simp only [List.mem_filter]
      exact ⟨hp, by rw [hgone]; rfl⟩
    intro hlen
    rw [List.length_eq_zero] at hlen
    rw [hlen] at this
    cases this

/-- Witness for C7: one existing and one missing candidate. -/
theorem nonexistent_candidate_excluded_witness :
    mkCP "/gone" "G" .user_cache "" .safe true false false none ∉ get_existing_paths [mkCP "/there" "T" .user_cache "" .safe true false false none, mkCP "/gone" "G" .user_cache "" .safe true false false none] (fun q => ((fun r => if r = "/there" then some (FSEntry.file 5) else none) q).isSome) ∧
    (scan_candidates (fun r => if r = "/there" then some (FSEntry.file 5) else none) [mkCP "/there" "T" .user_cache "" .safe true false false none, mkCP "/gone" "G" .user_cache "" .safe true false false none]).2.scan_paths_found + ([mkCP "/there" "T" .user_cache "" .safe true false false none, mkCP "/gone" "G" .user_cache "" .safe true false false none].filter fun c => (((fun r => if r = "/there" then some (FSEntry.file 5) else none)) c.path).isNone).length = (scan_candidates (fun r => if r = "/there" then some (FSEntry.file 5) else none) [mkCP "/there" "T" .user_cache "" .safe true false false none, mkCP "/gone" "G" .user_cache "" .safe true false false none]).2.scan_paths_total := by
  have h := nonexistent_candidate_excluded
    (fun r => if r = "/there" then some (FSEntry.file 5) else none)
    [mkCP "/there" "T" .user_cache "" .safe true false false none,
     mkCP "/gone" "G" .user_cache "" .safe true false false none]
    (mkCP "/gone" "G" .user_cache "" .safe true false false none)
    (by simp) rfl
  exact ⟨h.1, h.2.2.1⟩

/-- The intended top-N order on position-tagged items: strictly larger
size first, ties broken by smaller original scan position. -/
def topn_order (a b : Nat × CacheItem) : Prop :=
  b.2.size_bytes < a.2.size_bytes ∨
    (a.2.size_bytes = b.2.size_bytes ∧ a.1 < b.1)

lemma size_le_of_topn_order {a b : Nat × CacheItem}
    (h : topn_order a b) : b.2.size_bytes ≤ a.2.size_bytes := by
  rcases h with h | h
  · exact Nat.le_of_lt h
  · exact Nat.le_of_eq h.1.symm

lemma mem_insert_desc {x y : Nat × CacheItem} {l : List (Nat × CacheItem)} :
    y ∈ insert_desc x l ↔ y = x ∨ y ∈ l := by
  induction l with
  | nil => simp [insert_desc]
  | cons z zs ih =>
      by_cases h : z.2.size_bytes ≤ x.2.size_bytes
      · simp [insert_desc, h]
      · simp only [insert_desc, if_neg h, List.mem_cons, ih]
        tauto

lemma insert_desc_perm (x : Nat × CacheItem) (l : List (Nat × CacheItem)) :
    (insert_desc x l).Perm (x :: l) := by
  induction l with
  | nil => exact List.Perm.refl _
  | cons y ys ih =>
      by_cases h : y.2.size_bytes ≤ x.2.size_bytes
      · simp only [insert_desc, if_pos h]
        exact List.Perm.refl _
      · simp only [insert_desc, if_neg h]
        exact (ih.cons y).trans (List.Perm.swap x y ys)

lemma pairwise_insert_desc {x : Nat × CacheItem}
    {l : List (Nat × CacheItem)} (hl : l.Pairwise topn_order)
    (hx : ∀ y ∈ l, x.1 < y.1) :
    (insert_desc x l).Pairwise topn_order := by
  induction l with
  | nil => simp [insert_desc, List.pairwise_cons]
  | cons y ys ih =>
      obtain ⟨hy, hys⟩ := List.pairwise_cons.mp hl
      by_cases h : y.2.size_bytes ≤ x.2.size_bytes
      · simp only [insert_desc, if_pos h]
        refine List.pairwise_cons.mpr ⟨?_, hl⟩
        intro z hz
        have hzle : z.2.size_bytes ≤ x.2.size_bytes := by
          rcases List.mem_cons.mp hz with rfl | hzys
          · exact h
          · exact Nat.le_trans (size_le_of_topn_order (hy z hzys)) h
        rcases Nat.lt_or_ge z.2.size_bytes x.2.size_bytes with hlt | hge
        · exact Or.inl hlt
        · exact Or.inr ⟨Nat.le_antisymm hge hzle, hx z hz⟩
      · simp only [insert_desc, if_neg h]
        refine List.pairwise_cons.mpr ⟨?_, ?_⟩
        · intro z hz
          rcases mem_insert_desc.mp hz with rfl | hzys
          · exact Or.inl (Nat.lt_of_not_le h)
          · exact hy z hzys
        · exact ih hys fun z hz => hx z (List.mem_cons_of_mem y hz)

lemma sort_desc_tagged_perm (l : List (Nat × CacheItem)) :
    (sort_desc_tagged l).Perm l := by
  induction l with
  | nil => exact List.Perm.refl _
  | cons x xs ih =>
      exact (insert_desc_perm x (sort_desc_tagged xs)).trans (ih.cons x)

lemma sort_desc_tagged_pairwise {l : List (Nat × CacheItem)}
    (h : l.Pairwise fun a b => a.1 < b.1) :
    (sort_desc_tagged l).Pairwise topn_order := by
  induction l with
  | nil => exact List.Pairwise.nil
  | cons x xs ih =>
      obtain ⟨hx, hxs⟩ := List.pairwise_cons.mp h
      exact pairwise_insert_desc (ih hxs)
        fun y hy => hx y ((sort_desc_tagged_perm xs).subset hy)

lemma enum_pairwise_fst (l : List CacheItem) :
    l.enum.Pairwise fun a b => a.1 < b.1 := by
  have h1 : (l.enum.map Prod.fst).Pairwise (· < ·) := by
    rw [List.enum_map_fst]
    exact List.pairwise_lt_range _
  exact List.pairwise_map.mp h1

/-- C8: the top-N item order is the stable descending sort by
`size_bytes` — tagging each item with its scan position, the sorted list
is a permutation of the input in which any element strictly precedes
another exactly when its size is larger or the sizes tie and it came
earlier in scan order; consequently the untagged sorted sequence is a
permutation of the input and `get_top_items n` is its `n`-prefix.
Determinism across repeated evaluations holds because
`sorted_by_size_desc` is a function of the input sequence alone. -/
theorem top_items_stable_desc_order (items : List CacheItem) :
    (sort_desc_tagged items.enum).Perm items.enum ∧
    (sort_desc_tagged items.enum).Pairwise topn_order ∧
    (sorted_by_size_desc items).Perm items ∧
    (∀ (meta : ScanMetadata) (dt du df n : Nat),
      (ScanResult.mk items meta dt du df).get_top_items n
        = (sorted_by_size_desc items).take n) := by
  refine ⟨sort_desc_tagged_perm items.enum,
         sort_desc_tagged_pairwise (enum_pairwise_fst items), ?_, ?_⟩
  · have h := (sort_desc_tagged_perm items.enum).map Prod.snd
    have h2 : items.enum.map Prod.snd = items := List.enum_map_snd items
    rw [h2] at h
    exact h
  · intro meta dt du df n
    rfl

lemma clean_item_dry_fs (a : Bool) (c : RiskLevel) (fs : FS)
    (t : CleanTarget) : (clean_item a c true fs t).2 = fs := by
  unfold clean_item
  split
  · rfl
  split
  · rfl
  split
  · rfl
  split <;> rfl

lemma clean_item_fs_ne (a : Bool) (c : RiskLevel) (d : Bool) (fs : FS)
    (t : CleanTarget) {q : String} (hq : q ≠ t.path) :
    (clean_item a c d fs t).2 q = fs q := by
  unfold clean_item
  split
  · rfl
  split
  · rfl
  split
  · rfl
  split
  · rfl
  cases d <;> simp [hq]

lemma clean_item_outcome_congr (a : Bool) (c : RiskLevel) (d1 d2 : Bool)
    {fs1 fs2 : FS} (t : CleanTarget) (h : fs1 t.path = fs2 t.path) :
    (clean_item a c d1 fs1 t).1 = (clean_item a c d2 fs2 t).1 := by
  unfold clean_item
  rw [h]
  split
  · rfl
  split
  · rfl
  split
  · rfl
  split <;> rfl

lemma clean_all_dry_fs (a : Bool) (c : RiskLevel) (fs : FS)
    (ts : List CleanTarget) : (clean_all a c true fs ts).2 = fs := by
  induction ts generalizing fs with
  | nil => rfl
  | cons t ts ih =>
      show (clean_all a c true (clean_item a c true fs t).2 ts).2 = fs
      rw [clean_item_dry_fs]
      exact ih fs

lemma clean_all_parity_aux (a : Bool) (c : RiskLevel) (fs0 : FS) :
    ∀ (ts : List CleanTarget) (fsr : FS),
    (∀ t ∈ ts, fsr t.path = fs0 t.path) → (ts.map (·.path)).Nodup →
    (clean_all a c true fs0 ts).1 = (clean_all a c false fsr ts).1
  | [], _, _, _ => rfl
  | t :: ts, fsr, hagree, hnd => by
      have hhead : (clean_item a c true fs0 t).1
          = (clean_item a c false fsr t).1 :=
        clean_item_outcome_congr a c true false t
          (hagree t (List.mem_cons_self t ts)).symm
      have hdry : (clean_item a c true fs0 t).2 = fs0 :=
        clean_item_dry_fs a c fs0 t
      have htail : (clean_all a c true fs0 ts).1
          = (clean_all a c false (clean_item a c false fsr t).2 ts).1 := by
        apply clean_all_parity_aux a c fs0 ts
        · intro u hu
          have hne : u.path ≠ t.path := by
            intro hp
            have : t.path ∈ ts.map (·.path) :=
              hp ▸ List.mem_map_of_mem (·.path) hu
            exact (List.nodup_cons.mp (by simpa using hnd)).1 this
          rw [clean_item_fs_ne a c false fsr t hne]
          exact hagree u (List.mem_cons_of_mem t hu)
        · exact (List.nodup_cons.mp (by simpa using hnd)).2
      show (clean_item a c true fs0 t).1
          :: (clean_all a c true (clean_item a c true fs0 t).2 ts).1
        = (clean_item a c false fsr t).1
          :: (clean_all a c false (clean_item a c false fsr t).2 ts).1
      rw [hhead, hdry]
      exact congrArg _ htail

/-- C4: for a fixed filesystem snapshot and a fixed selection (with
pairwise-distinct target paths), a dry run produces the same per-item
outcomes as a real run — in particular the same cumulative
`bytes_freed` — and issues no delete operations: the snapshot after the
dry run is the input snapshot. -/
theorem dry_run_real_run_parity (a : Bool) (c : RiskLevel) (fs : FS)
    (ts : List CleanTarget) (hnd : (ts.map (·.path)).Nodup) :
    (clean_all a c true fs ts).1 = (clean_all a c false fs ts).1 ∧
    total_bytes_freed (clean_all a c true fs ts).1
      = total_bytes_freed (clean_all a c false fs ts).1 ∧
    (clean_all a c true fs ts).2 = fs := by
  have h1 := clean_all_parity_aux a c fs ts fs (fun _ _ => rfl) hnd
  exact ⟨h1, by rw [h1], clean_all_dry_fs a c fs ts⟩

/-- Witness for C4: a two-item selection over a concrete snapshot. -/
theorem dry_run_real_run_parity_witness :
    (clean_all true .caution true (fun q => if q = "/a" then some (FSEntry.file 100) else if q = "/b" then some (FSEntry.dir [FSEntry.file 20]) else none) [⟨"/a", true, .safe, false, false⟩, ⟨"/b", true, .safe, false, true⟩]).1 = (clean_all true .caution false (fun q => if q = "/a" then some (FSEntry.file 100) else if q = "/b" then some (FSEntry.dir [FSEntry.file 20]) else none) [⟨"/a", true, .safe, false, false⟩, ⟨"/b", true, .safe, false, true⟩]).1 ∧
    (clean_all true .caution true (fun q => if q = "/a" then some (FSEntry.file 100) else if q = "/b" then some (FSEntry.dir [FSEntry.file 20]) else none) [⟨"/a", true, .safe, false, false⟩, ⟨"/b", true, .safe, false, true⟩]).2 = (fun q => if q = "/a" then some (FSEntry.file 100) else if q = "/b" then some (FSEntry.dir [FSEntry.file 20]) else none) := by
  have h := dry_run_real_run_parity true .caution
    (fun q => if q = "/a" then some (FSEntry.file 100)
      else if q = "/b" then some (FSEntry.dir [FSEntry.file 20]) else none)
    [⟨"/a", true, .safe, false, false⟩, ⟨"/b", true, .safe, false, true⟩]
    (by decide)
  exact ⟨h.1, h.2.2⟩

/-- C6: for an admitted item whose path exists, cleaning with the
clean-contents-only flag set leaves the directory existing and empty,
while cleaning with the flag unset removes the path entirely. -/
theorem clean_contents_only_semantics (a : Bool) (c : RiskLevel)
    (fs : FS) (t : CleanTarget) (tree : FSEntry)
    (hadm : admitted a c t = true) (hfs : fs t.path = some tree) :
    (t.clean_contents_only = true →
      (clean_item a c false fs t).2 t.path = some (FSEntry.dir [])) ∧
    (t.clean_contents_only = false →
      (clean_item a c false fs t).2 t.path = none) := by
  simp only [admitted, Bool.and_eq_true, Bool.not_eq_true',
    Bool.and_eq_false_imp, decide_eq_false_iff_not] at hadm
  obtain ⟨⟨hclean, hrisk⟩, hreq⟩ := hadm
  unfold clean_item
  rw [if_neg (by simp [hclean]), if_neg hrisk,
    if_neg (by simp [Bool.and_eq_true]; intro hr; simpa [hr] using hreq hr),
    hfs]
  constructor <;> intro hflag <;> simp [hflag]

/-- Witness for C6: a safe cleanable directory target, once with the
contents-only flag and once without. -/
theorem clean_contents_only_semantics_witness :
    (clean_item true .safe false (fun q => if q = "/k" then some (FSEntry.dir [FSEntry.file 9]) else none) ⟨"/k", true, .safe, false, true⟩).2 "/k" = some (FSEntry.dir []) ∧
    (clean_item true .safe false (fun q => if q = "/k" then some (FSEntry.dir [FSEntry.file 9]) else none) ⟨"/k", true, .safe, false, false⟩).2 "/k" = none := by
  constructor
  · exact (clean_contents_only_semantics true .safe
      (fun q => if q = "/k" then some (FSEntry.dir [FSEntry.file 9])
        else none)
      ⟨"/k", true, .safe, false, true⟩ (FSEntry.dir [FSEntry.file 9])
      (by decide) rfl).1 rfl
  · exact (clean_contents_only_semantics true .safe
      (fun q => if q = "/k" then some (FSEntry.dir [FSEntry.file 9])
        else none)
      ⟨"/k", true, .safe, false, false⟩ (FSEntry.dir [FSEntry.file 9])
      (by decide) rfl).2 rfl

/-- A snapshot value left behind by a successful clean step: the path is
gone, or it is an emptied directory. -/
def gone_or_empty (v : Option FSEntry) : Prop :=
  v = none ∨ v = some (FSEntry.dir [])

lemma clean_item_guards (a : Bool) (c : RiskLevel) (d : Bool) (fs : FS)
    (t : CleanTarget) (hadm : admitted a c t = true) :
    clean_item a c d fs t
      = match fs t.path with
        | none => (skip_outcome t.path "not found", fs)
        | some tree =>
            ({ path := t.path, bytes_freed := scan_size tree,
               files_removed := scan_files tree, success := true,
               skip_reason := none, error := none },
             if d then fs
             else fun q =>
               if q = t.path then
                 (if t.clean_contents_only then some (.dir []) else none)
               else fs q) := by
  simp only [admitted, Bool.and_eq_true, Bool.not_eq_true',
    Bool.and_eq_false_imp, decide_eq_false_iff_not] at hadm
  obtain ⟨⟨hclean, hrisk⟩, hreq⟩ := hadm
  unfold clean_item
  rw [if_neg (by simp [hclean]), if_neg hrisk,
    if_neg (by simp [Bool.and_eq_true]; intro hr; simpa [hr] using hreq hr)]

lemma clean_item_not_admitted (a : Bool) (c : RiskLevel) (d : Bool)
    (fs : FS) (t : CleanTarget) (hadm : admitted a c t = false) :
    (clean_item a c d fs t).1.bytes_freed = 0
      ∧ (clean_item a c d fs t).2 = fs := by
  unfold clean_item
  split
  · exact ⟨rfl, rfl⟩
  split
  · exact ⟨rfl, rfl⟩
  split
  · exact ⟨rfl, rfl⟩
  rename_i h1 h2 h3
  exfalso
  have hc : t.is_cleanable = true := not_not.mp h1
  have ha : (t.requires_admin && !a) = false := by
    cases hav : (t.requires_admin && !a)
    · rfl
    · exact absurd hav h3
  rw [admitted] at hadm
  simp [hc, h2, ha] at hadm

lemma clean_item_bytes_zero_of (a : Bool) (c : RiskLevel) (fs : FS)
    (t : CleanTarget)
    (h : admitted a c t = true → gone_or_empty (fs t.path)) :
    (clean_item a c false fs t).1.bytes_freed = 0 := by
  cases hadm : admitted a c t with
  | false => exact (clean_item_not_admitted a c false fs t hadm).1
  | true =>
      rw [clean_item_guards a c false fs t hadm]
      rcases h hadm with hg | hg <;> rw [hg] <;> rfl

lemma clean_item_preserves_gone_or_empty (a : Bool) (c : RiskLevel)
    (fs : FS) (t : CleanTarget) (q : String)
    (h : gone_or_empty (fs q)) :
    gone_or_empty ((clean_item a c false fs t).2 q) := by
  by_cases hq : q = t.path
  · subst hq
    cases hadm : admitted a c t with
    | false => rw [(clean_item_not_admitted a c false fs t hadm).2]; exact h
    | true =>
        rw [clean_item_guards a c false fs t hadm]
        rcases h with hg | hg <;> rw [hg]
        · exact Or.inl hg
        · cases hflag : t.clean_contents_only <;> simp [hflag, gone_or_empty]
  · rw [clean_item_fs_ne a c false fs t hq]
    exact h

lemma clean_item_establish (a : Bool) (c : RiskLevel) (fs : FS)
    (t : CleanTarget) (hadm : admitted a c t = true) :
    gone_or_empty ((clean_item a c false fs t).2 t.path) := by
  rw [clean_item_guards a c false fs t hadm]
  cases hfs : fs t.path with
  | none => exact Or.inl hfs
  | some tree =>
      cases hflag : t.clean_contents_only <;> simp [hflag, gone_or_empty]

lemma clean_item_preserves_none (a : Bool) (c : RiskLevel) (d : Bool)
    (fs : FS) (t : CleanTarget) (q : String) (h : fs q = none) :
    (clean_item a c d fs t).2 q = none := by
  by_cases hq : q = t.path
  · subst hq
    unfold clean_item
    split
    · exact h
    split
    · exact h
    split
    · exact h
    split
    · exact h
    rename_i tree htree
    rw [h] at htree
    cases htree
  · rw [clean_item_fs_ne a c d fs t hq]
    exact h

lemma clean_item_establish_none (a : Bool) (c : RiskLevel) (fs : FS)
    (t : CleanTarget) (hadm : admitted a c t = true)
    (hflag : t.clean_contents_only = false) :
    (clean_item a c false fs t).2 t.path = none := by
  rw [clean_item_guards a c false fs t hadm]
  cases hfs : fs t.path with
  | none => exact hfs
  | some tree => simp [hflag]

lemma clean_item_not_found (a : Bool) (c : RiskLevel) (d : Bool)
    (fs : FS) (t : CleanTarget) (hadm : admitted a c t = true)
    (h : fs t.path = none) :
    (clean_item a c d fs t).1 = skip_outcome t.path "not found" := by
  rw [clean_item_guards a c d fs t hadm, h]

lemma clean_all_preserves_gone_or_empty (a : Bool) (c : RiskLevel)
    (q : String) :
    ∀ (ts : List CleanTarget) (fs : FS), gone_or_empty (fs q) →
    gone_or_empty ((clean_all a c false fs ts).2 q)
  | [], _, h => h
  | t :: ts, fs, h =>
      clean_all_preserves_gone_or_empty a c q ts
        (clean_item a c false fs t).2
        (clean_item_preserves_gone_or_empty a c fs t q h)

lemma clean_all_preserves_none (a : Bool) (c : RiskLevel) (q : String) :
    ∀ (ts : List CleanTarget) (fs : FS), fs q = none →
    (clean_all a c false fs ts).2 q = none
  | [], _, h => h
  | t :: ts, fs, h =>
      clean_all_preserves_none a c q ts (clean_item a c false fs t).2
        (clean_item_preserves_none a c false fs t q h)

lemma clean_all_establish (a : Bool) (c : RiskLevel) :
    ∀ (ts : List CleanTarget) (fs : FS), ∀ t ∈ ts,
    admitted a c t = true →
    gone_or_empty ((clean_all a c false fs ts).2 t.path)
  | u :: ts, fs, t, ht, hadm => by
      rcases List.mem_cons.mp ht with rfl | hts
      · exact clean_all_preserves_gone_or_empty a c t.path ts
          (clean_item a c false fs t).2
          (clean_item_establish a c fs t hadm)
      · exact clean_all_establish a c ts (clean_item a c false fs u).2
          t hts hadm

lemma clean_all_establish_none (a : Bool) (c : RiskLevel) :
    ∀ (ts : List CleanTarget) (fs : FS), ∀ t ∈ ts,
    admitted a c t = true → t.clean_contents_only = false →
    (clean_all a c false fs ts).2 t.path = none
  | u :: ts, fs, t, ht, hadm, hflag => by
      rcases List.mem_cons.mp ht with rfl | hts
      · exact clean_all_preserves_none a c t.path ts
          (clean_item a c false fs t).2
          (clean_item_establish_none a c fs t hadm hflag)
      · exact clean_all_establish_none a c ts
          (clean_item a c false fs u).2 t hts hadm hflag

lemma clean_all_bytes_zero (a : Bool) (c : RiskLevel) :
    ∀ (ts : List CleanTarget) (fs : FS),
    (∀ t ∈ ts, admitted a c t = true → gone_or_empty (fs t.path)) →
    total_bytes_freed (clean_all a c false fs ts).1 = 0
  | [], _, _ => rfl
  | t :: ts, fs, h => by
      have hhead : (clean_item a c false fs t).1.bytes_freed = 0 :=
        clean_item_bytes_zero_of a c fs t (h t (List.mem_cons_self t ts))
      have htail : total_bytes_freed
          (clean_all a c false (clean_item a c false fs t).2 ts).1 = 0 :=
        clean_all_bytes_zero a c ts (clean_item a c false fs t).2
          fun u hu hadm =>
            clean_item_preserves_gone_or_empty a c fs t u.path
              (h u (List.mem_cons_of_mem t hu) hadm)
      show ((clean_item a c false fs t).1.bytes_freed ::
        ((clean_all a c false (clean_item a c false fs t).2 ts).1.map
          (·.bytes_freed))).sum = 0
      rw [List.sum_cons, hhead, Nat.zero_add]
      exact htail

lemma clean_all_zip_not_found (a : Bool) (c : RiskLevel) :
    ∀ (ts : List CleanTarget) (fs : FS),
    (∀ t ∈ ts, admitted a c t = true → t.clean_contents_only = false →
      fs t.path = none) →
    ∀ p ∈ ts.zip (clean_all a c false fs ts).1,
      admitted a c p.1 = true → p.1.clean_contents_only = false →
      p.2.skip_reason = some "not found"
  | [], _, _, p, hp, _, _ => by cases hp
  | t :: ts, fs, h, p, hp, hadm, hflag => by
      rcases List.mem_cons.mp hp with rfl | htail
      · have := clean_item_not_found a c false fs t hadm
          (h t (List.mem_cons_self t ts) hadm hflag)
        rw [this]
        rfl
      · exact clean_all_zip_not_found a c ts (clean_item a c false fs t).2
          (fun u hu hadmu hflagu =>
            clean_item_preserves_none a c false fs t u.path
              (h u (List.mem_cons_of_mem t hu) hadmu hflagu))
          p htail hadm hflag

/-- C5 counterexample: for a cleanable, safe, clean-contents-only target
whose directory exists, the first run succeeds (freeing 1024 bytes) and
empties the directory but preserves it, so the second run finds the
path, re-cleans it successfully and reports no skip reason — it is not
a "skipped: not found" outcome, contradicting the claim that every
per-item outcome of the second run is "skipped: not found". -/
theorem clean_twice_counterexample :
    total_bytes_freed (clean_all true .caution false (fun q => if q = "/c" then some (FSEntry.dir [FSEntry.file 1024]) else none) [⟨"/c", true, .safe, false, true⟩]).1 = 1024 ∧
    ((clean_all true .caution false (clean_all true .caution false (fun q => if q = "/c" then some (FSEntry.dir [FSEntry.file 1024]) else none) [⟨"/c", true, .safe, false, true⟩]).2 [⟨"/c", true, .safe, false, true⟩]).1.map (·.skip_reason)) = [none] ∧
    ¬ (∀ o ∈ (clean_all true .caution false (clean_all true .caution false (fun q => if q = "/c" then some (FSEntry.dir [FSEntry.file 1024]) else none) [⟨"/c", true, .safe, false, true⟩]).2 [⟨"/c", true, .safe, false, true⟩]).1, o.skip_reason = some "not found") := by
  refine ⟨by decide, by decide, ?_⟩
  intro h
  have h2 := h (CleanOutcome.mk "/c" 0 0 true none none) (by decide)
  exact absurd h2 (by decide)

/-- C5 (amended): running the Cleaner a second time immediately after a
run on the same selection yields cumulative `bytes_freed = 0`; the
per-item outcome on the second run is "skipped: not found" for every
admitted item cleaned entirely (`clean_contents_only = false`), while
admitted clean-contents-only items are found again (as emptied
directories) and re-cleaned freeing 0 bytes. -/
theorem clean_twice_amended (a : Bool) (c : RiskLevel) (fs : FS)
    (ts : List CleanTarget) :
    total_bytes_freed (clean_all a c false
      (clean_all a c false fs ts).2 ts).1 = 0 ∧
    (∀ p ∈ ts.zip (clean_all a c false
        (clean_all a c false fs ts).2 ts).1,
      admitted a c p.1 = true → p.1.clean_contents_only = false →
      p.2.skip_reason = some "not found") := by
  constructor
  · exact clean_all_bytes_zero a c ts (clean_all a c false fs ts).2
      fun t ht hadm => clean_all_establish a c ts fs t ht hadm
  · exact clean_all_zip_not_found a c ts (clean_all a c false fs ts).2
      fun t ht hadm hflag =>
        clean_all_establish_none a c ts fs t ht hadm hflag

/-- Witness for C5 (amended): a concrete one-item selection with
`clean_contents_only = false`; the second run frees 0 bytes and reports
"skipped: not found". -/
theorem clean_twice_amended_witness :
    total_bytes_freed (clean_all true .caution false (clean_all true .caution false (fun q => if q = "/d" then some (FSEntry.file 512) else none) [⟨"/d", true, .safe, false, false⟩]).2 [⟨"/d", true, .safe, false, false⟩]).1 = 0 ∧
    (skip_outcome "/d" "not found").skip_reason = some "not found" := by
  have h := clean_twice_amended true .caution
    (fun q => if q = "/d" then some (FSEntry.file 512) else none)
    [⟨"/d", true, .safe, false, false⟩]
  refine ⟨h.1, ?_⟩
  exact h.2 (⟨"/d", true, .safe, false, false⟩,
    skip_outcome "/d" "not found") (by decide) (by decide) (by decide)

lemma linux_build_paths_ne_nil (e : LinuxEnv) :
    linux_build_paths e ≠ [] := by
  intro h
  have := congrArg List.length h
  simp [linux_build_paths] at this

lemma macos_build_paths_ne_nil (e : MacOSEnv) :
    macos_build_paths e ≠ [] := by
  intro h
  have := congrArg List.length h
  simp [macos_build_paths] at this

lemma windows_build_paths_ne_nil (e : WindowsEnv) :
    windows_build_paths e ≠ [] := by
  intro h
  have := congrArg List.length h
  simp [windows_build_paths] at this

lemma linux_first_call (e : LinuxEnv) :
    linux_get_cache_paths e .init
      = (linux_build_paths e, ⟨linux_build_paths e⟩) := by
  unfold linux_get_cache_paths PlatformState.init
  rw [if_neg (by simp)]

lemma macos_first_call (e : MacOSEnv) :
    macos_get_cache_paths e .init
      = (macos_build_paths e, ⟨macos_build_paths e⟩) := by
  unfold macos_get_cache_paths PlatformState.init
  rw [if_neg (by simp)]

lemma windows_first_call (e : WindowsEnv) :
    windows_get_cache_paths e .init
      = (windows_build_paths e, ⟨windows_build_paths e⟩) := by
  unfold windows_get_cache_paths PlatformState.init
  rw [if_neg (by simp)]

/-- C10: each platform provider memoizes its path table — the first call
to `get_cache_paths` builds the table and stores it in the provider
state, and a second call on the resulting state returns that stored list
unchanged (and leaves the state unchanged), even when the environment —
home directory, XDG variables, `APPDATA`, trash path — has changed
between the calls. -/
theorem provider_path_table_memoization (e1 e2 : LinuxEnv)
    (m1 m2 : MacOSEnv) (w1 w2 : WindowsEnv) :
    ((linux_get_cache_paths e1 .init).1 = linux_build_paths e1 ∧
     (linux_get_cache_paths e1 .init).2.cache_paths
       = linux_build_paths e1 ∧
     (linux_get_cache_paths e2 (linux_get_cache_paths e1 .init).2).1
       = (linux_get_cache_paths e1 .init).1 ∧
     (linux_get_cache_paths e2 (linux_get_cache_paths e1 .init).2).2
       = (linux_get_cache_paths e1 .init).2) ∧
    ((macos_get_cache_paths m1 .init).1 = macos_build_paths m1 ∧
     (macos_get_cache_paths m1 .init).2.cache_paths
       = macos_build_paths m1 ∧
     (macos_get_cache_paths m2 (macos_get_cache_paths m1 .init).2).1
       = (macos_get_cache_paths m1 .init).1 ∧
     (macos_get_cache_paths m2 (macos_get_cache_paths m1 .init).2).2
       = (macos_get_cache_paths m1 .init).2) ∧
    ((windows_get_cache_paths w1 .init).1 = windows_build_paths w1 ∧
     (windows_get_cache_paths w1 .init).2.cache_paths
       = windows_build_paths w1 ∧
     (windows_get_cache_paths w2 (windows_get_cache_paths w1 .init).2).1
       = (windows_get_cache_paths w1 .init).1 ∧
     (windows_get_cache_paths w2 (windows_get_cache_paths w1 .init).2).2
       = (windows_get_cache_paths w1 .init).2) := by
  refine ⟨?_, ?_, ?_⟩
  · rw [linux_first_call e1]
    have h2 : linux_get_cache_paths e2 ⟨linux_build_paths e1⟩
        = (linux_build_paths e1, ⟨linux_build_paths e1⟩) := by
      unfold linux_get_cache_paths
      rw [if_pos (linux_build_paths_ne_nil e1)]
    rw [h2]
    exact ⟨rfl, rfl, rfl, rfl⟩
  · rw [macos_first_call m1]
    have h2 : macos_get_cache_paths m2 ⟨macos_build_paths m1⟩
        = (macos_build_paths m1, ⟨macos_build_paths m1⟩) := by
      unfold macos_get_cache_paths
      rw [if_pos (macos_build_paths_ne_nil m1)]
    rw [h2]
    exact ⟨rfl, rfl, rfl, rfl⟩
  · rw [windows_first_call w1]
    have h2 : windows_get_cache_paths w2 ⟨windows_build_paths w1⟩
        = (windows_build_paths w1, ⟨windows_build_paths w1⟩) := by
      unfold windows_get_cache_paths
      rw [if_pos (windows_build_paths_ne_nil w1)]
    rw [h2]
    exact ⟨rfl, rfl, rfl, rfl⟩

end Cachekaro
